import Mathlib

/-!
Shallow embedding of the in-memory key/value store in `server.go`
(a `Datastore` with scalar entries, optional expiry, conditional writes,
and per-key LIFO queues), together with theorems settling the spec claims.

Modelling conventions:
* The Go map `map[string]*Data` under its single mutex is modelled as a
  function `String → Option Data`; every operation is a sequential
  state transformer returning its result pair together with the store
  after the call (Go mutates in place under the lock).
* Go `time.Time` timestamps are integer nanoseconds; the `time.Time`
  zero value (`IsZero`) is `Option.none`.
* Go string slicing `s[i:]`, which panics when `i > len(s)`, is
  `goSliceFrom`, returning `none` exactly where Go panics.
-/

namespace KVStore

/-- HTTP status codes used by the store (net/http constants). -/
def statusOK : Nat := 200

/-- http.StatusBadRequest. -/
def statusBadRequest : Nat := 400

/-- http.StatusNotFound. -/
def statusNotFound : Nat := 404

/-- http.StatusConflict. -/
def statusConflict : Nat := 409

/-- The `Data` struct of `server.go`: one entry per key.  Go zero values:
a queue entry created by `QPush` has `value = ""` and a zero `expiry`
(modelled `none`); a scalar entry created by `Set` has `queue = []`. -/
structure Data where
  value : String
  expiry : Option Int
  isQueued : Bool
  queue : List String
deriving Repr, DecidableEq

/-- The `data` map of the `Datastore`, keyed by `String`. -/
abbrev Store := String → Option Data

/-- The store created by `NewDatastore`: an empty map. -/
def emptyStore : Store := fun _ => none

/-- Go map assignment `ds.data[key] = d`. -/
def Store.update (s : Store) (key : String) (d : Data) : Store :=
  fun k => if k = key then some d else s k

/-- The expiry computed by `Set`: `now + expirySeconds` (in nanoseconds)
when `expirySeconds > 0`, otherwise the zero `time.Time`. -/
def setExpiry (now expirySeconds : Int) : Option Int :=
  if expirySeconds > 0 then some (now + expirySeconds * 1000000000) else none

/-- The unconditional write at the end of `Datastore.Set`:
`ds.data[key] = &Data{value: value, expiry: expiry, isQueued: false}`. -/
def setStore (s : Store) (now : Int) (key value : String) (expirySeconds : Int) :
    (String × Nat) × Store :=
  (("Enter data sucessfull", statusOK),
   Store.update s key ⟨value, setExpiry now expirySeconds, false, []⟩)

/-- `Datastore.Set(key, value, expirySeconds, conditional)`: NX fails on an
existing key, XX fails on an absent key, otherwise create/overwrite a
scalar entry.  The existence check does not read `expiry` or `isQueued`. -/
def Set (s : Store) (now : Int) (key value : String) (expirySeconds : Int)
    (conditional : String) : (String × Nat) × Store :=
  match s key with
  | some _ =>
      if conditional == "NX" then (("", statusConflict), s)
      else setStore s now key value expirySeconds
  | none =>
      if conditional == "XX" then (("", statusNotFound), s)
      else setStore s now key value expirySeconds

/-- `Datastore.Get(key)`: return the value when the key is present and
`expiry` is zero or still in the future (`time.Now().Before(expiry)`);
otherwise `NotFound`.  No kind check, and the store is never mutated. -/
def Get (s : Store) (now : Int) (key : String) : (String × Nat) × Store :=
  match s key with
  | some data =>
      match data.expiry with
      | none => ((data.value, statusOK), s)
      | some e =>
          if now < e then ((data.value, statusOK), s)
          else (("Key not exist", statusNotFound), s)
  | none => (("Key not exist", statusNotFound), s)

/-- `Datastore.QPush(key, values...)`: create a queue entry when absent,
conflict when the key holds a non-queue entry, else append to the tail. -/
def QPush (s : Store) (key : String) (values : List String) :
    (String × Nat) × Store :=
  match s key with
  | none =>
      (("Value is pushed successfully", statusOK),
       Store.update s key ⟨"", none, true, values⟩)
  | some data =>
      if data.isQueued then
        (("Value is pushed successfully", statusOK),
         Store.update s key { data with queue := data.queue ++ values })
      else
        (("Key already exists", statusConflict), s)

/-- `Datastore.QPop(key)`: BadRequest when the key is absent, not a queue,
or the queue is empty; else remove and return the tail element
(`queue[len-1]`, then `queue = queue[:len-1]`). -/
def QPop (s : Store) (key : String) : (String × Nat) × Store :=
  match s key with
  | none => (("Q is empty so nothing can be popped!!", statusBadRequest), s)
  | some data =>
      if data.isQueued then
        match data.queue.getLast? with
        | some v =>
            ((v, statusOK),
             Store.update s key { data with queue := data.queue.dropLast })
        | none => (("Q is empty so nothing can be popped!!", statusBadRequest), s)
      else (("Q is empty so nothing can be popped!!", statusBadRequest), s)

/-- Go's float64 → int64 conversion, applied to the exact rational value of
the float: truncation toward zero. -/
def goTruncToInt64 (x : ℚ) : Int := x.num.tdiv x.den

/-- The timeout `BQPop` computes, in nanoseconds:
`time.Duration(time.Second * time.Duration(timeoutSeconds))`.
`time.Duration(timeoutSeconds)` truncates the float64 to an int64 (a count
of nanoseconds), and multiplying by `time.Second` scales it by 10^9, so the
timeout is `trunc(timeoutSeconds)` whole seconds. -/
def bqpopTimeoutNanos (timeoutSeconds : ℚ) : Int :=
  1000000000 * goTruncToInt64 timeoutSeconds

/-- The deadline `expiry := time.Now().Add(timeout)` of `BQPop`. -/
def bqpopDeadline (now : Int) (timeoutSeconds : ℚ) : Int :=
  now + bqpopTimeoutNanos timeoutSeconds

/-- One iteration of `BQPop`'s polling loop, with `t` the wall-clock time
sampled by `time.Now()` during the iteration: `none` means the queue was
empty but the deadline has not passed, so the loop sleeps 100ms and
retries; `some` is the returned result and resulting store. -/
def bqpopStep (s : Store) (key : String) (t deadline : Int) :
    Option ((String × Nat) × Store) :=
  match s key with
  | none => if t > deadline then some (("", statusNotFound), s) else none
  | some data =>
      if data.isQueued then
        match data.queue.getLast? with
        | some v =>
            some ((v, statusOK),
                  Store.update s key { data with queue := data.queue.dropLast })
        | none => if t > deadline then some (("", statusNotFound), s) else none
      else if t > deadline then some (("", statusNotFound), s) else none

/-- Sequential denotation of `Datastore.BQPop(key, timeoutSeconds)`: with no
concurrent writers the store cannot change between poll iterations, so the
loop pops the tail immediately when data is present, and otherwise keeps
sleeping until the deadline passes and returns NotFound.  The timeout only
affects timing, not the returned value or store (see `bqpopStep` /
`bqpopDeadline` for the per-iteration timing behaviour). -/
def BQPop (s : Store) (key : String) (_timeoutSeconds : ℚ) :
    (String × Nat) × Store :=
  match s key with
  | none => (("", statusNotFound), s)
  | some data =>
      if data.isQueued then
        match data.queue.getLast? with
        | some v =>
            ((v, statusOK),
             Store.update s key { data with queue := data.queue.dropLast })
        | none => (("", statusNotFound), s)
      else (("", statusNotFound), s)

/-- Go string slicing `s[i:]`: panics (`none`) when `i > len(s)`, else the
suffix from byte index `i` (all strings involved here are ASCII, so the
character index agrees with Go's byte index). -/
def goSliceFrom (s : String) (i : Nat) : Option String :=
  if i ≤ s.length then some (s.drop i) else none

/-- The digits of an ASCII decimal numeral, as a natural number. -/
def digitsToNat (s : String) : Nat :=
  s.foldl (fun n c => n * 10 + (c.toNat - 48)) 0

/-- Models `strconv.Atoi`: an optional sign followed by at least one digit;
`none` on any other input. -/
def atoiOpt (s : String) : Option Int :=
  let (sign, digits) :=
    if s.startsWith "-" then ((-1 : Int), s.drop 1)
    else if s.startsWith "+" then ((1 : Int), s.drop 1)
    else ((1 : Int), s)
  if digits ≠ "" && digits.all Char.isDigit then
    some (sign * (digitsToNat digits : Int))
  else none

/-- The dispatcher's permissive expiry parse: `strconv.Atoi` with the error
discarded, so a malformed integer silently becomes 0 (Go's `Atoi` returns 0
together with the error). -/
def atoiOrZero (s : String) : Int := (atoiOpt s).getD 0

/-- Models `strconv.ParseFloat` restricted to plain decimal literals
(optional sign, digits, optional fractional part), the subset exercised by
the claims; the result is the exact rational value.  Go's exponent and hex
float syntax, and float64 rounding, are not modelled — no claim depends on
them. -/
def parseFloatOpt (s : String) : Option ℚ :=
  let (sign, body) :=
    if s.startsWith "-" then ((-1 : ℚ), s.drop 1)
    else if s.startsWith "+" then ((1 : ℚ), s.drop 1)
    else ((1 : ℚ), s)
  match body.splitOn "." with
  | [intPart] =>
      if intPart ≠ "" && intPart.all Char.isDigit then
        some (sign * (digitsToNat intPart : ℚ))
      else none
  | [intPart, fracPart] =>
      if (intPart ≠ "" || fracPart ≠ "") && intPart.all Char.isDigit
          && fracPart.all Char.isDigit then
        some (sign * ((digitsToNat intPart : ℚ)
          + (digitsToNat fracPart : ℚ) / ((10 : ℚ) ^ fracPart.length)))
      else none
  | _ => none

/-- `Datastore.ValidateSetInput`: 2–5 args; with ≥ 4 args the third must
start with `EX` and be longer than 2 characters; with exactly 5 args the
fifth must be `NX` or `XX`.  Note the `EX` shape of the third argument is
NOT checked when there are exactly 3 args. -/
def ValidateSetInput (args : List String) : Bool :=
  if args.length < 2 then false
  else if args.length > 5 then false
  else if args.length ≥ 4
      && (!(args.getD 2 "").startsWith "EX" || (args.getD 2 "").length ≤ 2) then
    false
  else if args.length == 5
      && (args.getD 4 "" != "NX" && args.getD 4 "" != "XX") then
    false
  else true

/-- `Datastore.ValidateBQPopInput`: exactly 2 args, the second parsing as a
float. -/
def ValidateBQPopInput (args : List String) : Bool :=
  args.length == 2 && (parseFloatOpt (args.getD 1 "")).isSome

/-- Splitting a character list at every space, keeping empty tokens:
the character-level semantics of `strings.Split(s, " ")`. -/
def splitChars : List Char → List (List Char)
  | [] => [[]]
  | c :: rest =>
      match splitChars rest with
      | [] => [[c]]
      | t :: ts => if c = ' ' then [] :: t :: ts else (c :: t) :: ts

/-- Models `strings.Split(s, " ")`: split on every single space; always
returns at least one token, so Go's `args[0]` is total. -/
def splitOnSpace (s : String) : List String :=
  (splitChars s.data).map String.mk

/-- Models `strings.ToUpper` character-wise (the verbs are ASCII). -/
def toUpperString (s : String) : String :=
  String.mk (s.data.map Char.toUpper)

/-- `Datastore.ParseCommand`: split the raw command on single spaces; the
first token upper-cased is the verb, the rest are the arguments. -/
def ParseCommand (rawCommand : String) : String × List String :=
  let args := splitOnSpace rawCommand
  (toUpperString (args.headD ""), args.tail)

/-- The payloads `HandleCommand` can return (Go `interface{}`): a plain
string, a `map[string]string`, or `nil`. -/
inductive Payload where
  | str (s : String)
  | fields (m : List (String × String))
  | nil
deriving Repr, DecidableEq

/-- The observable outcome of `HandleCommand`: a payload/status pair and the
store after the call, or a Go panic (carrying the store at the moment of
the panic — a panic in the dispatcher happens before any store call, so
the store is untouched). -/
inductive HCResult where
  | ok (payload : Payload) (status : Nat) (s : Store)
  | panics (s : Store)

/-- The `switch` body of `Datastore.HandleCommand`, applied to the parsed
verb and arguments.  The SET branch extracts the expiry by the Go slice
`args[2][2:]` whenever there are ≥ 3 args, which panics when the third
argument is shorter than 2 characters. -/
def dispatch (s : Store) (now : Int) (command : String) (args : List String) :
    HCResult :=
  if command == "SET" then
    if !ValidateSetInput args then .ok (.str "Invalid Command") statusBadRequest s
    else
      match (if args.length ≥ 3 then (goSliceFrom (args.getD 2 "") 2).map atoiOrZero
             else some 0) with
      | none => .panics s
      | some expirySeconds =>
          let conditional := if args.length == 5 then args.getD 4 "" else ""
          match Set s now (args.getD 0 "") (args.getD 1 "") expirySeconds conditional with
          | ((msg, st), s2) => .ok (.str msg) st s2
  else if command == "GET" then
    if args.length != 1 then .ok (.str "Invalid Command") statusBadRequest s
    else
      match Get s now (args.getD 0 "") with
      | ((v, st), s2) =>
          if st == statusOK then .ok (.fields [("value", v)]) st s2
          else .ok (.str v) st s2
  else if command == "QPUSH" then
    if args.length < 2 then .ok .nil statusBadRequest s
    else
      match QPush s (args.getD 0 "") args.tail with
      | ((msg, st), s2) => .ok (.str msg) st s2
  else if command == "QPOP" then
    if args.length != 1 then .ok .nil statusBadRequest s
    else
      match QPop s (args.getD 0 "") with
      | ((v, st), s2) =>
          if st == statusOK then .ok (.fields [("value", v)]) st s2
          else .ok (.fields [("error", v)]) st s2
  else if command == "BQPOP" then
    if !ValidateBQPopInput args then .ok .nil statusBadRequest s
    else
      match BQPop s (args.getD 0 "") ((parseFloatOpt (args.getD 1 "")).getD 0) with
      | ((v, st), s2) =>
          if st == statusOK then .ok (.fields [("value", v)]) st s2
          else .ok .nil st s2
  else .ok (.str "Invalid Command") statusBadRequest s

/-- `Datastore.HandleCommand(rawCommand)`: parse, then dispatch. -/
def HandleCommand (s : Store) (now : Int) (rawCommand : String) : HCResult :=
  match ParseCommand rawCommand with
  | (command, args) => dispatch s now command args

/-! ### Claim theorems -/

/-- C1: the claim says `HandleCommand` returns a pair for every raw command
and never faults, in particular on a 3-argument SET whose third argument
is shorter than 3 characters.  The code violates this: `SET k v a` passes
`ValidateSetInput` (the EX shape is only checked for ≥ 4 args), and the
dispatcher then evaluates `args[2][2:]` on the 1-character string `"a"`,
a Go slice-bounds panic.  The panic happens before `Set` is invoked, so
the store is untouched at the fault. -/
theorem C1_handleCommand_set_panics :
    HandleCommand emptyStore 0 "SET k v a" = .panics emptyStore ∧
    ValidateSetInput ["k", "v", "a"] = true ∧
    goSliceFrom "a" 2 = none :=
  ⟨rfl, rfl, rfl⟩

/-- C2: the claim says `BQPop` computes its deadline as exactly
`now + timeoutSeconds` seconds, sub-second values included, so that
`BQPop("q", 0.2)` on an empty queue returns NotFound only after ≥ 0.2s.
The code violates this: `time.Duration(timeoutSeconds)` truncates the
float64 toward zero, so a 0.2-second timeout becomes a 0-nanosecond
deadline and the very first poll after the start (here 1 nanosecond in)
already returns NotFound on the empty store. -/
theorem C2_bqpop_timeout_truncated :
    bqpopTimeoutNanos (1/5 : ℚ) = 0 ∧
    bqpopDeadline 0 (1/5 : ℚ) = 0 ∧
    bqpopStep emptyStore "q" 1 (bqpopDeadline 0 (1/5 : ℚ)) =
      some (("", statusNotFound), emptyStore) := by
  have hnum : ((1 : ℚ)/5).num = 1 := by norm_num
  have hden : ((1 : ℚ)/5).den = 5 := by norm_num
  have h0 : bqpopTimeoutNanos (1/5 : ℚ) = 0 := by
    unfold bqpopTimeoutNanos goTruncToInt64
    rw [hnum, hden]
    decide
  have h1 : bqpopDeadline 0 (1/5 : ℚ) = 0 := by
    unfold bqpopDeadline
    rw [h0]
    decide
  refine ⟨h0, h1, ?_⟩
  rw [h1]
  rfl

/-- C3 counterexample: the claim says an entry's kind never changes and any
wrong-kind operation on an existing key fails with Conflict without
mutating.  The code violates this for `Set` on a Queue-kind key: after
`QPush` creates `"q"` as a queue, an unconditional `Set` on `"q"` returns
OK and replaces the entry with a Scalar-kind one. -/
theorem C3_set_changes_kind :
    (((QPush emptyStore "q" ["a"]).2 "q").map Data.isQueued = some true) ∧
    (Set (QPush emptyStore "q" ["a"]).2 0 "q" "v" 0 "").1.2 = statusOK ∧
    (((Set (QPush emptyStore "q" ["a"]).2 0 "q" "v" 0 "").2 "q").map
       Data.isQueued = some false) :=
  ⟨by decide, by decide, by decide⟩

/-- C3 amended: `QPush` on an existing Scalar-kind key fails with Conflict
and no mutation, and `Set` with NX on any existing key fails with Conflict
and no mutation; but `Set` with any conditional other than NX on an
existing Queue-kind key succeeds and replaces the entry with a Scalar-kind
one — kind immutability holds against `QPush` but not against `Set`. -/
theorem C3_kind_check_asymmetric (s : Store) (now : Int) (key v : String)
    (es : Int) (vs : List String) (d : Data) (hd : s key = some d) :
    (d.isQueued = false →
       QPush s key vs = (("Key already exists", statusConflict), s)) ∧
    Set s now key v es "NX" = (("", statusConflict), s) ∧
    (∀ c : String, (c == "NX") = false →
       (Set s now key v es c).2 key = some ⟨v, setExpiry now es, false, []⟩) := by
  refine ⟨?_, ?_, ?_⟩
  · intro hq
    simp [QPush, hd, hq]
  · simp [Set, hd]
  · intro c hc
    simp [Set, hd, hc, setStore, Store.update]

/-- Witness for C3's amended theorem: a store holding a Scalar entry at
`"k"` and a Queue entry is exercised at concrete inputs. -/
theorem C3_kind_check_asymmetric_witness :
    (QPush (Store.update emptyStore "k" ⟨"old", none, false, []⟩) "k" ["x"] =
       (("Key already exists", statusConflict),
        Store.update emptyStore "k" ⟨"old", none, false, []⟩)) ∧
    (Set (Store.update emptyStore "k" ⟨"old", none, false, []⟩) 0 "k" "v" 0 "NX" =
       (("", statusConflict), Store.update emptyStore "k" ⟨"old", none, false, []⟩)) := by
  have h := C3_kind_check_asymmetric
    (Store.update emptyStore "k" ⟨"old", none, false, []⟩) 0 "k" "v" 0 ["x"]
    ⟨"old", none, false, []⟩ rfl
  exact ⟨h.1 rfl, h.2.1⟩

/-- C4: `QPop` removes and returns the tail-most (most recently pushed)
element of a Queue-kind entry, and on a fresh key `QPush q a b` is followed
by pops returning `b` then `a` then BadRequest. -/
theorem C4_qpop_lifo (s : Store) (key : String) (d : Data) (q : List String)
    (v : String) (hd : s key = some d) (hq : d.isQueued = true)
    (he : d.queue = q ++ [v]) :
    QPop s key = ((v, statusOK), Store.update s key { d with queue := q }) ∧
    ((QPop (QPush emptyStore "q" ["a", "b"]).2 "q").1 = ("b", statusOK) ∧
     (QPop (QPop (QPush emptyStore "q" ["a", "b"]).2 "q").2 "q").1 =
       ("a", statusOK) ∧
     (QPop (QPop (QPop (QPush emptyStore "q" ["a", "b"]).2 "q").2 "q").2 "q").1 =
       ("Q is empty so nothing can be popped!!", statusBadRequest)) := by
  refine ⟨?_, by decide, by decide, by decide⟩
  simp [QPop, hd, hq, he]

/-- Witness for C4: the LIFO pop applied to a concrete two-element queue. -/
theorem C4_qpop_lifo_witness :
    QPop (Store.update emptyStore "q" ⟨"", none, true, ["a", "b"]⟩) "q" =
      (("b", statusOK),
       Store.update (Store.update emptyStore "q" ⟨"", none, true, ["a", "b"]⟩)
         "q" ⟨"", none, true, ["a"]⟩) :=
  (C4_qpop_lifo (Store.update emptyStore "q" ⟨"", none, true, ["a", "b"]⟩)
    "q" ⟨"", none, true, ["a", "b"]⟩ ["a"] "b" rfl rfl rfl).1

/-- C5: `Set` with NX on an existing key returns Conflict and `Set` with XX
on an absent key returns NotFound; in both cases the returned store is the
input store — no entry is created, removed, or modified. -/
theorem C5_set_conditional_failures (s : Store) (now : Int) (key v : String)
    (es : Int) :
    ((s key).isSome = true → Set s now key v es "NX" = (("", statusConflict), s)) ∧
    (s key = none → Set s now key v es "XX" = (("", statusNotFound), s)) := by
  constructor
  · intro h
    match hd : s key, h with
    | some d, _ => simp [Set, hd]
  · intro h
    simp [Set, h]

/-- Witness for C5: NX fails on a store holding `"k"`, XX fails on the
empty store, both leaving the store unchanged. -/
theorem C5_set_conditional_failures_witness :
    Set (Store.update emptyStore "k" ⟨"old", none, false, []⟩) 0 "k" "w" 0 "NX" =
      (("", statusConflict), Store.update emptyStore "k" ⟨"old", none, false, []⟩) ∧
    Set emptyStore 0 "k" "w" 0 "XX" = (("", statusNotFound), emptyStore) :=
  ⟨(C5_set_conditional_failures
      (Store.update emptyStore "k" ⟨"old", none, false, []⟩) 0 "k" "w" 0).1 rfl,
   (C5_set_conditional_failures emptyStore 0 "k" "w" 0).2 rfl⟩

/-- C6: `Get` returns NotFound on an absent key, and on a key whose entry
has an expiry with `now ≥ expiry`; in both cases the returned store is the
input store — the expired entry is not removed and nothing is mutated. -/
theorem C6_get_expired_notfound (s : Store) (now : Int) (key : String) :
    (s key = none →
       Get s now key = (("Key not exist", statusNotFound), s)) ∧
    (∀ d e, s key = some d → d.expiry = some e → e ≤ now →
       Get s now key = (("Key not exist", statusNotFound), s)) := by
  constructor
  · intro h
    simp [Get, h]
  · intro d e hd he hle
    simp [Get, hd, he, not_lt.mpr hle]

/-- Witness for C6: a concrete entry that expired at time 5 read at time 7,
and an absent key, both reported NotFound with the store unchanged. -/
theorem C6_get_expired_notfound_witness :
    Get (Store.update emptyStore "k" ⟨"v", some 5, false, []⟩) 7 "k" =
      (("Key not exist", statusNotFound),
       Store.update emptyStore "k" ⟨"v", some 5, false, []⟩) ∧
    Get emptyStore 7 "k" = (("Key not exist", statusNotFound), emptyStore) :=
  ⟨(C6_get_expired_notfound
      (Store.update emptyStore "k" ⟨"v", some 5, false, []⟩) 7 "k").2
      ⟨"v", some 5, false, []⟩ 5 rfl rfl (by decide),
   (C6_get_expired_notfound emptyStore 7 "k").1 rfl⟩

/-- C7: the dispatcher wraps a successful GET as the structured payload
`value ↦ …` and passes a GET failure's message and status through as a
plain string; it wraps a successful QPOP as `value ↦ …` and a QPOP failure
as `error ↦ …`, keeping the store's status — and `QPop`'s status is always
OK or BadRequest, so a wrapped QPOP failure keeps BadRequest. -/
theorem C7_get_qpop_wrapping (s : Store) (now : Int) (key : String) :
    dispatch s now "GET" [key] =
      (if (Get s now key).1.2 == statusOK then
        HCResult.ok (.fields [("value", (Get s now key).1.1)])
          (Get s now key).1.2 (Get s now key).2
       else
        HCResult.ok (.str (Get s now key).1.1)
          (Get s now key).1.2 (Get s now key).2) ∧
    dispatch s now "QPOP" [key] =
      (if (QPop s key).1.2 == statusOK then
        HCResult.ok (.fields [("value", (QPop s key).1.1)])
          (QPop s key).1.2 (QPop s key).2
       else
        HCResult.ok (.fields [("error", (QPop s key).1.1)])
          (QPop s key).1.2 (QPop s key).2) ∧
    ((QPop s key).1.2 = statusOK ∨ (QPop s key).1.2 = statusBadRequest) := by
  refine ⟨?_, ?_, ?_⟩
  · show dispatch s now "GET" [key] = _
    rcases hG : Get s now key with ⟨⟨v, st⟩, s2⟩
    simp [dispatch, hG]
  · rcases hQ : QPop s key with ⟨⟨v, st⟩, s2⟩
    simp [dispatch, hQ]
  · rcases h : s key with _ | d
    · simp [QPop, h, statusBadRequest]
    · rcases hq : d.isQueued with _ | _
      · simp [QPop, h, hq, statusBadRequest]
      · rcases hl : d.queue.getLast? with _ | v
        · simp [QPop, h, hq, hl, statusBadRequest]
        · simp [QPop, h, hq, hl, statusOK]

/-- C8: popping the last remaining element of a Queue-kind entry does not
delete the key: afterwards the key still maps to a Queue-kind entry with
an empty queue, which is distinct from the key being absent. -/
theorem C8_qpop_keeps_empty_queue (s : Store) (key v : String) (d : Data)
    (hd : s key = some d) (hq : d.isQueued = true) (he : d.queue = [v]) :
    (QPop s key).1 = (v, statusOK) ∧
    (QPop s key).2 key = some { d with queue := ([] : List String) } ∧
    ({ d with queue := ([] : List String) } : Data).isQueued = true ∧
    (QPop s key).2 key ≠ none := by
  have h1 : QPop s key = ((v, statusOK),
      Store.update s key { d with queue := ([] : List String) }) := by
    simp [QPop, hd, hq, he]
  refine ⟨by rw [h1], ?_, by rw [hq], ?_⟩
  · rw [h1]
    simp [Store.update]
  · rw [h1]
    simp [Store.update]

/-- Witness for C8: popping the single element of a concrete one-element
queue leaves the key mapped to an empty Queue-kind entry. -/
theorem C8_qpop_keeps_empty_queue_witness :
    (QPop (Store.update emptyStore "q" ⟨"", none, true, ["a"]⟩) "q").1 =
      ("a", statusOK) ∧
    (QPop (Store.update emptyStore "q" ⟨"", none, true, ["a"]⟩) "q").2 "q" =
      some ⟨"", none, true, []⟩ ∧
    (⟨"", none, true, []⟩ : Data).isQueued = true ∧
    (QPop (Store.update emptyStore "q" ⟨"", none, true, ["a"]⟩) "q").2 "q" ≠
      none :=
  C8_qpop_keeps_empty_queue (Store.update emptyStore "q" ⟨"", none, true, ["a"]⟩)
    "q" "a" ⟨"", none, true, ["a"]⟩ rfl rfl rfl

/-- C9: a key created by `QPush` holds a Queue-kind entry whose scalar
`value` field is the empty string and whose expiry is the zero value, and
`Get` performs no kind check, so `Get` on such a key returns the empty
string with status OK (and mutates nothing). -/
theorem C9_get_on_queue_key (s : Store) (now : Int) (key : String)
    (vs : List String) (h : s key = none) :
    Get (QPush s key vs).2 now key = (("", statusOK), (QPush s key vs).2) := by
  have h2 : (QPush s key vs).2 key = some ⟨"", none, true, vs⟩ := by
    simp [QPush, h, Store.update]
  simp [Get, h2]

/-- Witness for C9: `Get` after `QPush` on a fresh key returns the empty
string with status OK. -/
theorem C9_get_on_queue_key_witness :
    Get (QPush emptyStore "q" ["a"]).2 0 "q" =
      (("", statusOK), (QPush emptyStore "q" ["a"]).2) :=
  C9_get_on_queue_key emptyStore 0 "q" ["a"] rfl

/-- C10: the NX/XX existence check of `Set` ignores expiry: on a key whose
entry's expiry has already passed (`Get` reports NotFound), NX still fails
with Conflict and no mutation, while XX still succeeds and overwrites the
entry with the new scalar. -/
theorem C10_set_ignores_expiry (s : Store) (now : Int) (key v : String)
    (es : Int) (d : Data) (e : Int) (hd : s key = some d)
    (he : d.expiry = some e) (hex : e ≤ now) :
    (Get s now key).1.2 = statusNotFound ∧
    Set s now key v es "NX" = (("", statusConflict), s) ∧
    (Set s now key v es "XX").1 = ("Enter data sucessfull", statusOK) ∧
    (Set s now key v es "XX").2 key = some ⟨v, setExpiry now es, false, []⟩ := by
  refine ⟨?_, ?_, ?_, ?_⟩
  · simp [Get, hd, he, not_lt.mpr hex]
  · simp [Set, hd]
  · simp [Set, hd, setStore]
  · simp [Set, hd, setStore, Store.update]

/-- Witness for C10: an entry expired at time 5, accessed at time 7. -/
theorem C10_set_ignores_expiry_witness :
    (Get (Store.update emptyStore "k" ⟨"old", some 5, false, []⟩) 7 "k").1.2 =
      statusNotFound ∧
    Set (Store.update emptyStore "k" ⟨"old", some 5, false, []⟩) 7 "k" "v" 0 "NX" =
      (("", statusConflict), Store.update emptyStore "k" ⟨"old", some 5, false, []⟩) ∧
    (Set (Store.update emptyStore "k" ⟨"old", some 5, false, []⟩) 7 "k" "v" 0 "XX").1 =
      ("Enter data sucessfull", statusOK) ∧
    (Set (Store.update emptyStore "k" ⟨"old", some 5, false, []⟩) 7 "k" "v" 0 "XX").2 "k" =
      some ⟨"v", setExpiry 7 0, false, []⟩ :=
  C10_set_ignores_expiry (Store.update emptyStore "k" ⟨"old", some 5, false, []⟩)
    7 "k" "v" 0 ⟨"old", some 5, false, []⟩ 5 rfl rfl (by decide)

end KVStore
